import Mathlib

/-!
Shallow embedding of the retrieval-augmented ingestion pipeline of the
github-cursor-rules-agent repository, and proofs about its claims.

The embedded code:
  * fileProcessorTool  (src/unnamed/part_006) — chunk a file, embed the
    chunks in sub-batches of 100, store them in a LibSQL vector index;
  * vectorQueryTool    (src/src/mastra/tools/rag/vectorQuery.ts) — embed a
    query string and run a similarity query against the vector index;
  * cloneRepositoryTool (src/src/mastra/tools/github/cloneRepository.ts) —
    clone a repository, treating an already existing clone directory as
    success.

External effects (file system, embedding provider, vector store, shell)
are modelled as explicit environment records of fallible oracles:
`Except String α` stands for a JavaScript promise that either resolves
with a value or rejects with an error whose message is the `String`.
TypeScript string operations that the tools use (split, replace of the
first occurrence, path extname) are re-implemented on `List Char` so that
every definition evaluates inside the kernel.
-/

/-- Splits a character list at every occurrence of `sep`, with the same
semantics as the JavaScript `String.prototype.split` with a one-character
separator: the empty input yields one empty field, and adjacent
separators yield empty fields. -/
def splitChars (sep : Char) : List Char → List (List Char)
  | [] => [[]]
  | c :: rest =>
    let r := splitChars sep rest
    if c = sep then [] :: r
    else
      match r with
      | [] => [[c]]
      | h :: t => (c :: h) :: t

/-- `splitString` lifts `splitChars` to `String`. -/
def splitString (sep : Char) (s : String) : List String :=
  (splitChars sep s.data).map String.mk

/-- Removes the first occurrence of `pat` from a character list, with the
same semantics as the JavaScript `String.prototype.replace` with a string
pattern and an empty replacement: only the first occurrence is removed,
and a list without an occurrence is returned unchanged. -/
def removeFirstOcc (pat : List Char) : List Char → List Char
  | [] => []
  | c :: rest =>
    if pat.isPrefixOf (c :: rest) then (c :: rest).drop pat.length
    else c :: removeFirstOcc pat rest

/-- Node `path.extname`: the extension of the last path segment, from its
last dot to its end; the empty string when the segment has no dot or is a
dotfile such as `.bashrc`. -/
def extname (p : String) : String :=
  let base := (splitString ('/') p).getLastD ("")
  match splitChars ('.') base.data with
  | [] => ""
  | [_] => ""
  | first :: rest =>
    if first = [] ∧ rest.length = 1 then ""
    else String.mk ('.' :: rest.getLastD [])

/-- The `switch (fileExt)` of fileProcessorTool (part_006 lines 96–114):
maps a lowercased extension to the file type tag that selects the
MDocument constructor. -/
def fileTypeFor (ext : String) : String :=
  if ext = ".md" ∨ ext = ".markdown" then "markdown"
  else if ext = ".html" ∨ ext = ".htm" then "html"
  else if ext = ".json" then "json"
  else "text"

/-- JavaScript `toLowerCase`, character by character, so that it
evaluates inside the kernel. -/
def toLowerString (s : String) : String := String.mk (s.data.map Char.toLower)

/-- An embedding vector; the numeric contents are abstracted to integers,
since no claim depends on the arithmetic of vector components. -/
abbrev Vec := List Int

/-- One chunk as returned by `doc.chunk`: its text and its
strategy-specific metadata, the latter abstracted to an association
list. -/
structure Chunk where
  text : String
  metadata : List (String × String)
deriving DecidableEq, Repr

/-- The metadata object built for each chunk before the upsert
(part_006 lines 171–176): text, filePath and fileType plus the spread of
the chunk metadata. -/
structure RecordMeta where
  text : String
  filePath : String
  fileType : String
  extra : List (String × String)
deriving DecidableEq, Repr

/-- The input schema of fileProcessorTool (part_006 lines 17–43). -/
structure FPInput where
  filePath : String
  strategy : String
  chunkSize : Nat
  overlap : Nat
  separator : String
  dbPath : String
  indexName : String
  extractMetadata : Bool
deriving DecidableEq, Repr

/-- The metadata object of the full-success result of fileProcessorTool
(part_006 lines 204–212). -/
structure FPMeta where
  totalChunks : Nat
  averageChunkLength : Nat
deriving DecidableEq, Repr

/-- The output schema of fileProcessorTool (part_006 lines 44–52). -/
structure FPResult where
  success : Bool
  message : String
  filePath : String
  strategy : String
  chunkCount : Option Nat
  fileType : Option String
  metadata : Option FPMeta
deriving DecidableEq, Repr

/-- The external world as seen by fileProcessorTool: each field is one of
the awaited effects of part_006, as a deterministic oracle.
`Except.error e` models a promise rejected with an error whose message is
`e`. `chunkAt` covers both the MDocument constructor and `doc.chunk`,
which sit in the same try block; it receives the file type tag, the file
content, and the strategy, size, overlap and separator arguments exactly
as the source passes them (lines 117–122). -/
structure FPEnv where
  fileExists : String → Bool
  readFileAt : String → Except String String
  chunkAt : String → String → String → Nat → Nat → String → Except String (List Chunk)
  createIndexAt : String → Nat → Except String Unit
  embedBatch : List String → Except String (List Vec)
  upsertAt : String → List Vec → List RecordMeta → Except String Unit

/-- The sub-batch bound of the embedding loop (part_006 line 153):
the Google embedding model accepts at most 100 values per call. -/
def providerBatchSize : Nat := 100

/-- The slicing of the embedding loop (part_006 lines 156–168): the loop
`for (let i = 0; i < chunks.length; i += batchSize)` takes
`chunks.slice(i, i + batchSize)` on each iteration, so the chunk list is
cut into consecutive runs of at most 100 elements. -/
def batches {α : Type} : List α → List (List α)
  | [] => []
  | x :: rest =>
    ((x :: rest).take providerBatchSize) :: batches ((x :: rest).drop providerBatchSize)
termination_by xs => xs.length
decreasing_by simp [providerBatchSize]; omega

unseal batches

/-- The sizes of the sub-batches that `batches` produces, as a function
of the input length alone. -/
def batchSizes : Nat → List Nat
  | 0 => []
  | n + 1 => min providerBatchSize (n + 1) :: batchSizes (n + 1 - providerBatchSize)
termination_by n => n
decreasing_by simp [providerBatchSize]; omega

unseal batchSizes

/-- The embedding loop body of part_006 lines 156–168: one `embedMany`
call per sub-batch, pushing the returned vectors onto the accumulator; a
rejected call aborts the loop at that sub-batch. The first component
records the sub-batch calls actually issued, in order. -/
def embedLoop (embed : List String → Except String (List Vec)) :
    List (List String) → List (List String) × Except String (List Vec)
  | [] => ([], Except.ok [])
  | b :: bs =>
    match embed b with
    | Except.error e => ([b], Except.error e)
    | Except.ok vs =>
      match embedLoop embed bs with
      | (calls, Except.error e) => (b :: calls, Except.error e)
      | (calls, Except.ok rest) => (b :: calls, Except.ok (vs ++ rest))

/-- The storage loop of part_006 lines 179–195: one `upsert` call per
slice of at most 100 vectors, with the metadata sliced at the same
indices; a rejected call aborts the loop. -/
def upsertLoop (upsert : List Vec → List RecordMeta → Except String Unit) :
    List Vec → List RecordMeta → Except String Unit
  | [], _ => Except.ok ()
  | v :: rest, metas =>
    match upsert ((v :: rest).take providerBatchSize) (metas.take providerBatchSize) with
    | Except.error e => Except.error e
    | Except.ok _ =>
      upsertLoop upsert ((v :: rest).drop providerBatchSize) (metas.drop providerBatchSize)
termination_by vecs _ => vecs.length
decreasing_by simp [providerBatchSize]; omega

unseal upsertLoop

/-- JavaScript `Math.round` of the ratio `num / den` for natural numbers:
the floor of the ratio plus one half. -/
def jsRound (num den : Nat) : Nat := (2 * num + den) / (2 * den)

/-- The `execute` body of fileProcessorTool (part_006 lines 53–236),
branch for branch:
  * a failed `fs.access` has its own try/catch and yields the
    file-not-found result;
  * a rejected `fs.readFile`, MDocument constructor or `doc.chunk`
    reaches the outer catch (lines 228–235);
  * empty content and an empty chunk list yield their own
    `success: false` results (lines 81–88 and 124–132);
  * the inner try (lines 139–227) covers index creation, the embedding
    loop and the storage loop; any rejection inside it yields the
    `success: true` chunked-but-not-embedded result of lines 219–226;
  * otherwise the full-success result of lines 197–213 is returned. -/
def fileProcessorExecute (env : FPEnv) (inp : FPInput) : FPResult :=
  if env.fileExists inp.filePath = false then
    { success := false
      message := "ファイル " ++ inp.filePath ++ " が見つかりません。"
      filePath := inp.filePath, strategy := inp.strategy
      chunkCount := none, fileType := none, metadata := none }
  else
    match env.readFileAt inp.filePath with
    | Except.error e =>
      { success := false
        message := "ファイル処理中にエラーが発生しました: " ++ e
        filePath := inp.filePath, strategy := inp.strategy
        chunkCount := none, fileType := none, metadata := none }
    | Except.ok fileContent =>
      if fileContent = "" then
        { success := false
          message := "ファイル " ++ inp.filePath ++ " は空です。"
          filePath := inp.filePath, strategy := inp.strategy
          chunkCount := none, fileType := none, metadata := none }
      else
        let fileType := fileTypeFor (toLowerString (extname inp.filePath))
        match env.chunkAt fileType fileContent inp.strategy inp.chunkSize inp.overlap inp.separator with
        | Except.error e =>
          { success := false
            message := "ファイル処理中にエラーが発生しました: " ++ e
            filePath := inp.filePath, strategy := inp.strategy
            chunkCount := none, fileType := none, metadata := none }
        | Except.ok chunks =>
          if chunks.length = 0 then
            { success := false
              message := "ファイル " ++ inp.filePath ++ " からチャンクを抽出できませんでした。"
              filePath := inp.filePath, strategy := inp.strategy
              chunkCount := none, fileType := some fileType, metadata := none }
          else
            let onEmbedError : String → FPResult := fun e =>
              { success := true
                message := "ファイル " ++ inp.filePath ++
                  " のチャンキングは成功しましたが、埋め込み処理でエラーが発生しました: " ++ e
                filePath := inp.filePath, strategy := inp.strategy
                chunkCount := some chunks.length
                fileType := some fileType, metadata := none }
            match env.createIndexAt inp.indexName 768 with
            | Except.error e => onEmbedError e
            | Except.ok _ =>
              match embedLoop env.embedBatch (batches (chunks.map Chunk.text)) with
              | (_, Except.error e) => onEmbedError e
              | (_, Except.ok allEmbeddings) =>
                let metas := chunks.map fun c =>
                  { text := c.text, filePath := inp.filePath
                    fileType := fileType, extra := c.metadata : RecordMeta }
                match upsertLoop (env.upsertAt inp.indexName) allEmbeddings metas with
                | Except.error e => onEmbedError e
                | Except.ok _ =>
                  { success := true
                    message := "ファイル " ++ inp.filePath ++ " のチャンキングと埋め込みが完了しました。" ++
                      toString chunks.length ++ "個のチャンクを作成しました。"
                    filePath := inp.filePath, strategy := inp.strategy
                    chunkCount := some chunks.length
                    fileType := some fileType
                    metadata := some
                      { totalChunks := chunks.length
                        averageChunkLength :=
                          jsRound ((chunks.map fun c => c.text.length).sum) chunks.length } }

/-- The batch count of the embedding loop is the ceiling of `n / 100`. -/
theorem batches_length {α : Type} (xs : List α) :
    (batches xs).length = (xs.length + 99) / 100 := by
  induction xs using batches.induct with
  | case1 => simp [batches]
  | case2 x rest ih =>
    rw [batches]
    simp only [List.length_cons, List.length_drop] at ih ⊢
    simp only [providerBatchSize] at ih ⊢
    omega

/-- The sub-batches concatenate back to the original list: the loop
neither drops, duplicates nor reorders chunk texts. -/
theorem batches_flatten {α : Type} (xs : List α) :
    (batches xs).flatten = xs := by
  induction xs using batches.induct with
  | case1 => simp [batches]
  | case2 x rest ih =>
    rw [batches]
    simp [ih, List.take_append_drop]

/-- Every sub-batch produced by the loop is nonempty and holds at most
100 chunk texts. -/
theorem mem_batches {α : Type} {b xs : List α} (h : b ∈ batches xs) :
    b.length ≤ providerBatchSize ∧ b ≠ [] := by
  induction xs using batches.induct with
  | case1 => simp [batches] at h
  | case2 x rest ih =>
    rw [batches] at h
    rcases List.mem_cons.mp h with h1 | h2
    · subst h1
      refine ⟨List.length_take_le _ _, ?_⟩
      intro hc
      have hlen := congrArg List.length hc
      simp only [List.length_take, List.length_cons, List.length_nil,
        providerBatchSize] at hlen
      omega
    · exact ih h2

/-- The sub-batch sizes are a function of the input length alone. -/
theorem batches_map_length {α : Type} (xs : List α) :
    (batches xs).map List.length = batchSizes xs.length := by
  induction xs using batches.induct with
  | case1 => simp [batches, batchSizes]
  | case2 x rest ih =>
    rw [batches]
    simp only [List.map_cons, List.length_take, List.length_cons,
      List.length_drop] at ih ⊢
    rw [batchSizes]
    simp only [Nat.min_def, Nat.add_sub_cancel]
    rw [ih]

/-- When every `embedMany` call resolves with one vector per input text
(the provider contract of spec §4.2/§6, instantiated by an arbitrary
per-text embedding function), the loop issues exactly the planned
sub-batch calls and accumulates the per-text vectors in order. -/
theorem embedLoop_ok (f : String → Vec) (bs : List (List String)) :
    embedLoop (fun b => Except.ok (b.map f)) bs
      = (bs, Except.ok (bs.flatten.map f)) := by
  induction bs with
  | nil => simp [embedLoop]
  | cons b bs ih => simp [embedLoop, ih]

/-- Claim C2: for a chunk list of length n, the embedding stage of
fileProcessorTool issues exactly the ceiling of n / 100 sub-batch calls
to embedMany, each call taking the next at most 100 chunk texts in
original order; when all calls succeed it accumulates exactly n vectors
in input chunk order, and for n = 250 the sub-batch sizes are 100, 100
and 50. -/
theorem fileProcessor_embedStage_batching (texts : List String) (f : String → Vec) :
    (batches texts).length = (texts.length + 99) / 100
    ∧ (∀ b ∈ batches texts, b.length ≤ 100 ∧ b ≠ [])
    ∧ (batches texts).flatten = texts
    ∧ embedLoop (fun b => Except.ok (b.map f)) (batches texts)
        = (batches texts, Except.ok (texts.map f))
    ∧ (texts.map f).length = texts.length
    ∧ (texts.length = 250 → (batches texts).map List.length = [100, 100, 50]) := by
  refine ⟨batches_length texts, ?_, batches_flatten texts, ?_, by simp, ?_⟩
  · intro b hb
    exact mem_batches hb
  · rw [embedLoop_ok, batches_flatten]
  · intro h250
    rw [batches_map_length, h250]
    decide

set_option maxRecDepth 10000 in
/-- Witness for claim C2: the 250-text scenario, at a concrete list. -/
theorem fileProcessor_embedStage_batching_witness :
    (batches (List.replicate 250 ("t"))).map List.length = [100, 100, 50] :=
  (fileProcessor_embedStage_batching (List.replicate 250 ("t"))
    (fun _ => [])).2.2.2.2.2 (by simp)

/-- Claim C10: fileProcessorExecute is a total function into the result
type (every failure of the modelled effects is a returned value, not an
exception), and every result carries the filePath and strategy of the
input unchanged. -/
theorem fileProcessor_preserves_input_fields (env : FPEnv) (inp : FPInput) :
    (fileProcessorExecute env inp).filePath = inp.filePath
    ∧ (fileProcessorExecute env inp).strategy = inp.strategy := by
  unfold fileProcessorExecute
  constructor <;> (dsimp only; repeat' split) <;> rfl

/-- Claim C1 (amended): when chunking succeeds and the embedding stage
fails, fileProcessorTool returns `success := true` with a message noting
the embedding error, preserving the chunk count and file type but not
the chunk text, and with no metadata field; only the message and the
missing metadata distinguish this outcome from full success. -/
theorem fileProcessor_embedFailure_outcome (env : FPEnv) (inp : FPInput)
    (content : String) (chunks : List Chunk) (calls : List (List String)) (e : String)
    (hex : env.fileExists inp.filePath = true)
    (hread : env.readFileAt inp.filePath = Except.ok content)
    (hne : content ≠ "")
    (hchunk : env.chunkAt (fileTypeFor (toLowerString (extname inp.filePath))) content inp.strategy
        inp.chunkSize inp.overlap inp.separator = Except.ok chunks)
    (hchunks : chunks ≠ [])
    (hidx : env.createIndexAt inp.indexName 768 = Except.ok ())
    (hembed : embedLoop env.embedBatch (batches (chunks.map Chunk.text))
        = (calls, Except.error e)) :
    fileProcessorExecute env inp =
      { success := true
        message := "ファイル " ++ inp.filePath ++
          " のチャンキングは成功しましたが、埋め込み処理でエラーが発生しました: " ++ e
        filePath := inp.filePath, strategy := inp.strategy
        chunkCount := some chunks.length
        fileType := some (fileTypeFor (toLowerString (extname inp.filePath)))
        metadata := none } := by
  unfold fileProcessorExecute
  simp [hex, hread, hne, hchunk, hchunks, hidx, hembed]

/-- The concrete environment of claim C1: an existing nonempty file that
chunks into two chunks, with an embedding provider that rejects every
call. -/
def c1Env : FPEnv :=
  { fileExists := fun _ => true
    readFileAt := fun _ => Except.ok ("hello")
    chunkAt := fun _ _ _ _ _ _ => Except.ok [⟨"alpha", []⟩, ⟨"beta", []⟩]
    createIndexAt := fun _ _ => Except.ok ()
    embedBatch := fun _ => Except.error ("embed down")
    upsertAt := fun _ _ _ => Except.ok () }

/-- The same environment with different chunk texts of the same count
and lengths. -/
def c1EnvB : FPEnv :=
  { c1Env with chunkAt := fun _ _ _ _ _ _ => Except.ok [⟨"gamma", []⟩, ⟨"delta", []⟩] }

/-- The concrete input of claim C1. -/
def c1Inp : FPInput :=
  ⟨"notes.md", "recursive", 512, 50, "\n", "vector_store.db", "docs", true⟩

/-- Witness for claim C1 (amended): the chunked-but-not-embedded outcome
at the concrete environment. -/
theorem fileProcessor_embedFailure_outcome_witness :
    fileProcessorExecute c1Env c1Inp =
      { success := true
        message := "ファイル " ++ "notes.md" ++
          " のチャンキングは成功しましたが、埋め込み処理でエラーが発生しました: " ++ "embed down"
        filePath := "notes.md", strategy := "recursive"
        chunkCount := some 2
        fileType := some ("markdown")
        metadata := none } := by
  exact fileProcessor_embedFailure_outcome c1Env c1Inp ("hello")
    [⟨"alpha", []⟩, ⟨"beta", []⟩] [["alpha", "beta"]] ("embed down")
    rfl rfl (by decide) rfl (by decide) rfl rfl

/-- Counterexample for claim C1: two runs whose chunk texts differ yield
the very same result value, so the result does not preserve the chunk
text (a caller cannot retry the embedding from the result without
re-chunking); the outcome also carries the same success flag as full
success. -/
theorem fileProcessor_chunkText_not_in_result :
    fileProcessorExecute c1Env c1Inp = fileProcessorExecute c1EnvB c1Inp
    ∧ c1Env.chunkAt ("markdown") ("hello") ("recursive") 512 50 ("\n")
        = Except.ok [⟨"alpha", []⟩, ⟨"beta", []⟩]
    ∧ c1EnvB.chunkAt ("markdown") ("hello") ("recursive") 512 50 ("\n")
        = Except.ok [⟨"gamma", []⟩, ⟨"delta", []⟩]
    ∧ ([⟨"alpha", []⟩, ⟨"beta", []⟩] : List Chunk) ≠ [⟨"gamma", []⟩, ⟨"delta", []⟩]
    ∧ (fileProcessorExecute c1Env c1Inp).success = true := by
  refine ⟨by decide, rfl, rfl, by decide, by decide⟩

/-- Claim C3 (amended): an existing file whose content is empty yields a
result with the distinct empty-file message, but it is a failure result:
`success := false`, exactly like the other failure outcomes. -/
theorem fileProcessor_emptyFile_reports_failure (env : FPEnv) (inp : FPInput)
    (hex : env.fileExists inp.filePath = true)
    (hread : env.readFileAt inp.filePath = Except.ok ("")) :
    fileProcessorExecute env inp =
      { success := false
        message := "ファイル " ++ inp.filePath ++ " は空です。"
        filePath := inp.filePath, strategy := inp.strategy
        chunkCount := none, fileType := none, metadata := none } := by
  unfold fileProcessorExecute
  simp [hex, hread]

/-- The concrete environment of claim C3: an existing file that reads as
the empty string. -/
def c3Env : FPEnv :=
  { fileExists := fun _ => true
    readFileAt := fun _ => Except.ok ("")
    chunkAt := fun _ _ _ _ _ _ => Except.ok []
    createIndexAt := fun _ _ => Except.ok ()
    embedBatch := fun b => Except.ok (b.map (fun _ => []))
    upsertAt := fun _ _ _ => Except.ok () }

/-- The concrete input of claim C3. -/
def c3Inp : FPInput :=
  ⟨"data.txt", "recursive", 512, 50, "\n", "vector_store.db", "docs", true⟩

/-- Witness for claim C3 (amended): the empty-file outcome at the
concrete environment. -/
theorem fileProcessor_emptyFile_reports_failure_witness :
    (fileProcessorExecute c3Env c3Inp).success = false := by
  rw [fileProcessor_emptyFile_reports_failure c3Env c3Inp rfl rfl]

/-- Counterexample for claim C3: the empty-content condition is reported
with `success := false` — a failure result, not the claimed
non-error condition. -/
theorem fileProcessor_emptyFile_is_error :
    (fileProcessorExecute c3Env c3Inp).success = false
    ∧ (fileProcessorExecute c3Env c3Inp).message = "ファイル data.txt は空です。" := by
  constructor <;> decide

set_option linter.unusedVariables false in
/-- Claim C4 (amended): fileProcessorTool never validates the overlap
against the chunk size; a call with overlap ≥ chunkSize is not rejected
with any configuration error — the parameters are handed to the chunker
unchanged, and when every stage succeeds the call runs to full
success. -/
theorem fileProcessor_overlap_not_validated (env : FPEnv) (inp : FPInput)
    (content : String) (chunks : List Chunk) (calls : List (List String)) (vecs : List Vec)
    (hov : inp.chunkSize ≤ inp.overlap)
    (hex : env.fileExists inp.filePath = true)
    (hread : env.readFileAt inp.filePath = Except.ok content)
    (hne : content ≠ "")
    (hchunk : env.chunkAt (fileTypeFor (toLowerString (extname inp.filePath))) content inp.strategy
        inp.chunkSize inp.overlap inp.separator = Except.ok chunks)
    (hchunks : chunks ≠ [])
    (hidx : env.createIndexAt inp.indexName 768 = Except.ok ())
    (hembed : embedLoop env.embedBatch (batches (chunks.map Chunk.text))
        = (calls, Except.ok vecs))
    (hupsert : upsertLoop (env.upsertAt inp.indexName) vecs
        (chunks.map fun c =>
          { text := c.text, filePath := inp.filePath
            fileType := fileTypeFor (toLowerString (extname inp.filePath))
            extra := c.metadata : RecordMeta }) = Except.ok ()) :
    (fileProcessorExecute env inp).success = true
    ∧ (fileProcessorExecute env inp).chunkCount = some chunks.length := by
  unfold fileProcessorExecute
  simp [hex, hread, hne, hchunk, hchunks, hidx, hembed, hupsert]

/-- The concrete environment of claim C4: every stage succeeds. -/
def c4Env : FPEnv :=
  { fileExists := fun _ => true
    readFileAt := fun _ => Except.ok ("body")
    chunkAt := fun _ _ _ _ _ _ => Except.ok [⟨"body", []⟩]
    createIndexAt := fun _ _ => Except.ok ()
    embedBatch := fun b => Except.ok (b.map (fun _ => [0]))
    upsertAt := fun _ _ _ => Except.ok () }

/-- The concrete input of claim C4: overlap 600 against chunk size 512,
violating the precondition that the claim says is enforced. -/
def c4Inp : FPInput :=
  ⟨"file.txt", "recursive", 512, 600, "\n", "vector_store.db", "docs", true⟩

/-- Witness for claim C4 (amended): the full-success run at the concrete
environment with overlap ≥ chunkSize. -/
theorem fileProcessor_overlap_not_validated_witness :
    (fileProcessorExecute c4Env c4Inp).success = true
    ∧ (fileProcessorExecute c4Env c4Inp).chunkCount = some 1 := by
  exact fileProcessor_overlap_not_validated c4Env c4Inp ("body")
    [⟨"body", []⟩] [["body"]] [[0]]
    (by decide) rfl rfl (by decide) rfl (by decide) rfl rfl rfl

/-- Counterexample for claim C4: a call with overlap 600 ≥ chunkSize 512
is not rejected before any work — it reads the file, chunks, embeds and
stores, and returns the full-success result, with no
InvalidConfiguration error anywhere. -/
theorem fileProcessor_no_overlap_check :
    c4Inp.chunkSize ≤ c4Inp.overlap
    ∧ fileProcessorExecute c4Env c4Inp =
      { success := true
        message := "ファイル file.txt のチャンキングと埋め込みが完了しました。1個のチャンクを作成しました。"
        filePath := "file.txt", strategy := "recursive"
        chunkCount := some 1, fileType := some ("text")
        metadata := some { totalChunks := 1, averageChunkLength := 4 } } := by
  constructor <;> decide

/-- The metadata stored with a record, as vectorQueryTool reads it back
(vectorQuery.ts lines 68–74): each field may be absent. -/
structure StoredMeta where
  text : Option String
  filePath : Option String
  fileType : Option String
deriving DecidableEq, Repr

/-- One record returned by the vector store query: its metadata object
(possibly absent) and its similarity score. Similarity is modelled as a
scaled natural number (for example per-mille), since no claim depends on
fractional arithmetic. -/
structure StoreRecord where
  metadata : Option StoredMeta
  similarity : Nat
deriving DecidableEq, Repr

/-- One formatted entry of the results array of vectorQueryTool
(vectorQuery.ts lines 68–74). -/
structure QueryHit where
  text : String
  filePath : String
  fileType : String
  similarity : Nat
  metadata : StoredMeta
deriving DecidableEq, Repr

/-- The input schema of vectorQueryTool (vectorQuery.ts lines 14–21):
only the query string, the database path and the index name — no result
limit and no similarity threshold. -/
structure VQInput where
  query : String
  dbPath : String
  indexName : String
deriving DecidableEq, Repr

/-- The output schema of vectorQueryTool (vectorQuery.ts lines 22–36). -/
structure VQResult where
  success : Bool
  message : String
  results : Option (List QueryHit)
deriving DecidableEq, Repr

/-- The external world as seen by vectorQueryTool: the LibSQLVector
constructor, the `embed` call, and the store `query` call, each as a
deterministic fallible oracle. -/
structure VQEnv where
  storeInit : String → Except String Unit
  embed : String → Except String Vec
  storeQueryAt : String → Vec → Except String (List StoreRecord)

/-- The result formatting of vectorQuery.ts lines 68–74: missing
metadata fields default to the empty string, and a missing metadata
object defaults to an empty object. -/
def formatHit (r : StoreRecord) : QueryHit :=
  { text := (r.metadata.bind StoredMeta.text).getD ("")
    filePath := (r.metadata.bind StoredMeta.filePath).getD ("")
    fileType := (r.metadata.bind StoredMeta.fileType).getD ("")
    similarity := r.similarity
    metadata := r.metadata.getD ⟨none, none, none⟩ }

/-- The `execute` body of vectorQueryTool (vectorQuery.ts lines 37–99),
branch for branch:
  * a rejected LibSQLVector constructor reaches the outer catch
    (lines 92–98);
  * the inner try (lines 46–91) covers the `embed` call and the store
    `query` call, so a rejection of either one yields the same inner
    catch result (lines 81–91) with the embedding-error message;
  * an empty result list yields the no-match success (lines 59–65);
  * otherwise the formatted results are returned (lines 67–80).
The store passes no limit and no threshold to `query`
(lines 54–57). -/
def vectorQueryExecute (env : VQEnv) (inp : VQInput) : VQResult :=
  match env.storeInit inp.dbPath with
  | Except.error e =>
    { success := false
      message := "検索中にエラーが発生しました: " ++ e
      results := some [] }
  | Except.ok _ =>
    match env.embed inp.query with
    | Except.error e =>
      { success := false
        message := "エンベディング処理でエラーが発生しました: " ++ e
        results := some [] }
    | Except.ok embedding =>
      match env.storeQueryAt inp.indexName embedding with
      | Except.error e =>
        { success := false
          message := "エンベディング処理でエラーが発生しました: " ++ e
          results := some [] }
      | Except.ok searchResults =>
        if searchResults.length = 0 then
          { success := true
            message := "クエリに一致する結果が見つかりませんでした。"
            results := some [] }
        else
          { success := true
            message := toString searchResults.length ++ "件の結果が見つかりました。"
            results := some (searchResults.map formatHit) }

/-- Modelled from the spec: the Vector Store `query` semantics of §4.3.
The store itself is the external LibSQLVector library, whose code is not
part of this repository; per the spec, a query returns the stored
records whose similarity to the query vector is at least the similarity
threshold, ordered by descending similarity and truncated to the result
limit. -/
def storeQuerySpec (records : List StoreRecord) (threshold : Nat) (limit : Nat) :
    List StoreRecord :=
  ((records.filter (fun r => threshold ≤ r.similarity)).mergeSort
    (fun a b => decide (b.similarity ≤ a.similarity))).take limit

/-- The store content of claim C5: a single record whose similarity to
the query is low (0.100 on the scaled score). -/
def c5Records : List StoreRecord :=
  [{ metadata := some ⟨some ("low relevance text"), some ("a.ts"), some ("text")⟩
     similarity := 100 }]

/-- The concrete environment of claim C5. -/
def c5Env : VQEnv :=
  { storeInit := fun _ => Except.ok ()
    embed := fun _ => Except.ok [1]
    storeQueryAt := fun _ _ => Except.ok c5Records }

/-- The concrete input of claim C5: the full input schema — there is no
field through which a caller could pass a limit or a threshold. -/
def c5Inp : VQInput := ⟨"what is this", "vector_store.db", "docs"⟩

/-- Claim C5, evaluated at the failing input: vectorQueryTool accepts no
limit and no threshold, and returns the low-similarity record that the
spec-level query with threshold 0.900 would have filtered out. -/
theorem vectorQuery_no_limit_no_threshold :
    vectorQueryExecute c5Env c5Inp =
      { success := true
        message := "1件の結果が見つかりました。"
        results := some [{ text := "low relevance text", filePath := "a.ts"
                           fileType := "text", similarity := 100
                           metadata := ⟨some ("low relevance text"), some ("a.ts"), some ("text")⟩ }] }
    ∧ storeQuerySpec c5Records 900 10 = [] := by
  constructor
  · decide
  · have h : c5Records.filter (fun r => decide (900 ≤ r.similarity)) = [] := by decide
    simp [storeQuerySpec, h]

/-- The environment of claim C6 in which the embedding call itself is
rejected. -/
def c6EnvEmbedFail : VQEnv :=
  { storeInit := fun _ => Except.ok ()
    embed := fun _ => Except.error ("Index docs_index was not found")
    storeQueryAt := fun _ _ => Except.ok [] }

/-- The environment of claim C6 in which the embedding succeeds and the
store query is rejected because the index does not exist. -/
def c6EnvIndexMissing : VQEnv :=
  { storeInit := fun _ => Except.ok ()
    embed := fun _ => Except.ok [1]
    storeQueryAt := fun _ _ => Except.error ("Index docs_index was not found") }

/-- The concrete input of claim C6: a query against an index that was
never created. -/
def c6Inp : VQInput := ⟨"query", "vector_store.db", "docs_index"⟩

/-- Counterexample for claim C6: a rejected store query (the
index-not-found case) produces the very same result value as a rejected
embedding call, so the missing-index condition is not distinguishable
from the embedding-failure condition. -/
theorem vectorQuery_indexNotFound_conflated :
    vectorQueryExecute c6EnvIndexMissing c6Inp = vectorQueryExecute c6EnvEmbedFail c6Inp := by
  decide

/-- Claim C6 (amended): a query whose store lookup is rejected (in
particular a query naming an index that was never created) yields
`success := false` with empty results — never an empty-success result —
but it is reported through the same catch and message envelope as an
embedding failure, so the two conditions differ only in the raw
message text of the underlying error. -/
theorem vectorQuery_missingIndex_error (env : VQEnv) (inp : VQInput) (v : Vec) (e : String)
    (hinit : env.storeInit inp.dbPath = Except.ok ())
    (hembed : env.embed inp.query = Except.ok v)
    (hquery : env.storeQueryAt inp.indexName v = Except.error e) :
    vectorQueryExecute env inp =
      { success := false
        message := "エンベディング処理でエラーが発生しました: " ++ e
        results := some [] } := by
  unfold vectorQueryExecute
  simp [hinit, hembed, hquery]

/-- Witness for claim C6 (amended): the missing-index run at the
concrete environment. -/
theorem vectorQuery_missingIndex_error_witness :
    vectorQueryExecute c6EnvIndexMissing c6Inp =
      { success := false
        message := "エンベディング処理でエラーが発生しました: " ++ "Index docs_index was not found"
        results := some [] } := by
  exact vectorQuery_missingIndex_error c6EnvIndexMissing c6Inp [1]
    ("Index docs_index was not found") rfl rfl rfl

/-- Claim C7: when the store query of an existing index returns the
spec-level filtered result and no stored record clears the similarity
threshold, vectorQueryTool returns an empty-results success, not an
error. -/
theorem vectorQuery_noMatch_emptySuccess (env : VQEnv) (inp : VQInput)
    (recs : List StoreRecord) (threshold limit : Nat) (v : Vec)
    (hinit : env.storeInit inp.dbPath = Except.ok ())
    (hembed : env.embed inp.query = Except.ok v)
    (hquery : env.storeQueryAt inp.indexName v = Except.ok (storeQuerySpec recs threshold limit))
    (hbelow : ∀ r ∈ recs, r.similarity < threshold) :
    vectorQueryExecute env inp =
      { success := true
        message := "クエリに一致する結果が見つかりませんでした。"
        results := some [] } := by
  have hfilter : recs.filter (fun r => decide (threshold ≤ r.similarity)) = [] := by
    rw [List.filter_eq_nil_iff]
    intro r hr
    simpa using Nat.not_le.mpr (hbelow r hr)
  have hempty : storeQuerySpec recs threshold limit = [] := by
    simp [storeQuerySpec, hfilter]
  unfold vectorQueryExecute
  simp [hinit, hembed, hquery, hempty]

/-- The store content of claim C7: one record of similarity 0.800,
queried with threshold 0.900 — the scenario of spec §8. -/
def c7Records : List StoreRecord :=
  [{ metadata := some ⟨some ("only record"), none, none⟩, similarity := 800 }]

/-- The concrete environment of claim C7. -/
def c7Env : VQEnv :=
  { storeInit := fun _ => Except.ok ()
    embed := fun _ => Except.ok [1]
    storeQueryAt := fun _ _ => Except.ok (storeQuerySpec c7Records 900 10) }

/-- The concrete input of claim C7. -/
def c7Inp : VQInput := ⟨"q", "vector_store.db", "docs"⟩

/-- Witness for claim C7: the 0.8-versus-0.9 scenario at the concrete
environment. -/
theorem vectorQuery_noMatch_emptySuccess_witness :
    vectorQueryExecute c7Env c7Inp =
      { success := true
        message := "クエリに一致する結果が見つかりませんでした。"
        results := some [] } := by
  exact vectorQuery_noMatch_emptySuccess c7Env c7Inp c7Records 900 10 [1]
    rfl rfl rfl (by decide)

/-- Claim C8: a rejected embedding call makes vectorQueryTool return an
unsuccessful result wrapping the failure message (with its distinct
message envelope), rather than propagating the raw provider error as an
exception. -/
theorem vectorQuery_embedFailure_wrapped (env : VQEnv) (inp : VQInput) (e : String)
    (hinit : env.storeInit inp.dbPath = Except.ok ())
    (hembed : env.embed inp.query = Except.error e) :
    vectorQueryExecute env inp =
      { success := false
        message := "エンベディング処理でエラーが発生しました: " ++ e
        results := some [] } := by
  unfold vectorQueryExecute
  simp [hinit, hembed]

/-- The concrete environment of claim C8: the embedding provider rejects
the call. -/
def c8Env : VQEnv :=
  { storeInit := fun _ => Except.ok ()
    embed := fun _ => Except.error ("provider quota exceeded")
    storeQueryAt := fun _ _ => Except.ok [] }

/-- The concrete input of claim C8. -/
def c8Inp : VQInput := ⟨"how does auth work", "vector_store.db", "docs"⟩

/-- Witness for claim C8: the embedding-failure run at the concrete
environment. -/
theorem vectorQuery_embedFailure_wrapped_witness :
    vectorQueryExecute c8Env c8Inp =
      { success := false
        message := "エンベディング処理でエラーが発生しました: " ++ "provider quota exceeded"
        results := some [] } := by
  exact vectorQuery_embedFailure_wrapped c8Env c8Inp ("provider quota exceeded") rfl rfl

/-- The input schema of cloneRepositoryTool
(cloneRepository.ts lines 35–55). -/
structure CloneInput where
  repositoryUrl : String
  branch : Option String
  includeLfs : Bool
  includeSubmodules : Bool
deriving DecidableEq, Repr

/-- The output schema of cloneRepositoryTool
(cloneRepository.ts lines 13–26). -/
structure CloneResult where
  success : Bool
  message : String
  repositoryFullPath : Option String
  cloneDirectoryName : Option String
deriving DecidableEq, Repr

/-- The external world as seen by cloneRepositoryTool: the working
directory of the process, the `fs.existsSync` check, and `execAsync` for
shell commands. -/
structure CloneEnv where
  cwd : String
  dirExists : String → Bool
  run : String → Except String Unit

/-- The repository name computation of cloneRepository.ts lines 63–64:
the last segment of the URL split on `/`, with the first occurrence of
`.git` removed, falling back to `repo` when the outcome is the empty
string. -/
def repoNameOf (url : String) : String :=
  let popped := (splitString ('/') url).getLastD ("")
  let stripped := String.mk (removeFirstOcc ((".git").data) popped.data)
  if stripped = "" then "repo" else stripped

/-- Node `path.resolve(cwd, dir)` for a relative directory name under an
absolute normalized working directory: the working directory joined with
the name. -/
def pathResolve (cwd dir : String) : String := cwd ++ "/" ++ dir

/-- The clone command construction of cloneRepository.ts lines 78–92:
the base command, the optional branch flag, the optional submodule flag,
and the target directory. -/
def cloneCommand (inp : CloneInput) (cloneDir : String) : String :=
  let c1 := "git clone " ++ inp.repositoryUrl
  let c2 :=
    match inp.branch with
    | some b => c1 ++ " -b " ++ b
    | none => c1
  let c3 := if inp.includeSubmodules then c2 ++ " --recurse-submodules" else c2
  c3 ++ " " ++ cloneDir

/-- The `execute` body of cloneRepositoryTool
(cloneRepository.ts lines 57–135), branch for branch. The second
component of the result records the shell commands actually executed, in
order, so that a skipped clone is observable:
  * when the target directory already exists the tool returns success
    with the existing full path and runs nothing (lines 68–76);
  * a rejected clone command reaches the catch, which returns failure
    with the dummy `repo` paths (lines 118–134);
  * when LFS is requested, a rejected `git lfs pull` yields a partial
    success (lines 98–110);
  * otherwise a full success is returned (lines 112–117). -/
def cloneExecute (env : CloneEnv) (inp : CloneInput) : CloneResult × List String :=
  let repoName := repoNameOf inp.repositoryUrl
  let cloneDir := repoName
  let fullPath := pathResolve env.cwd cloneDir
  if env.dirExists fullPath then
    ({ success := true
       message := "ディレクトリ " ++ cloneDir ++ " は既に存在するため、クローンをスキップしました。"
       repositoryFullPath := some fullPath
       cloneDirectoryName := some cloneDir }, [])
  else
    let command := cloneCommand inp cloneDir
    match env.run command with
    | Except.error e =>
      ({ success := false
         message := "クローンに失敗しました: " ++ e
         repositoryFullPath := some (pathResolve env.cwd ("repo"))
         cloneDirectoryName := some ("repo") }, [command])
    | Except.ok _ =>
      if inp.includeLfs then
        let lfsCommand := "cd " ++ cloneDir ++ " && git lfs pull"
        match env.run lfsCommand with
        | Except.error e =>
          ({ success := true
             message := "リポジトリのクローンは成功しましたが、LFSファイルの取得に失敗しました: " ++ e
             repositoryFullPath := some fullPath
             cloneDirectoryName := some cloneDir }, [command, lfsCommand])
        | Except.ok _ =>
          ({ success := true
             message := "リポジトリを " ++ fullPath ++ " にクローンしました。"
             repositoryFullPath := some fullPath
             cloneDirectoryName := some cloneDir }, [command, lfsCommand])
      else
        ({ success := true
           message := "リポジトリを " ++ fullPath ++ " にクローンしました。"
           repositoryFullPath := some fullPath
           cloneDirectoryName := some cloneDir }, [command])

/-- Claim C9: when the target clone directory already exists,
cloneRepositoryTool returns success carrying the full path of the
existing directory and executes no shell command at all — re-running
with the same inputs is safe. -/
theorem clone_existingDir_skips_and_succeeds (env : CloneEnv) (inp : CloneInput)
    (hdir : env.dirExists (pathResolve env.cwd (repoNameOf inp.repositoryUrl)) = true) :
    cloneExecute env inp =
      ({ success := true
         message := "ディレクトリ " ++ repoNameOf inp.repositoryUrl ++
           " は既に存在するため、クローンをスキップしました。"
         repositoryFullPath := some (pathResolve env.cwd (repoNameOf inp.repositoryUrl))
         cloneDirectoryName := some (repoNameOf inp.repositoryUrl) }, []) := by
  unfold cloneExecute
  simp [hdir]

/-- The concrete environment of claim C9: the clone directory already
exists, and any attempted shell command would fail, so only the skip
path can succeed. -/
def c9Env : CloneEnv :=
  { cwd := "/work"
    dirExists := fun _ => true
    run := fun _ => Except.error ("should not run") }

/-- The concrete input of claim C9. -/
def c9Inp : CloneInput :=
  { repositoryUrl := "https://github.com/user/sample.git"
    branch := none
    includeLfs := false
    includeSubmodules := false }

/-- Witness for claim C9: the skip outcome at the concrete environment,
with the `.git` suffix stripped from the directory name and no command
executed. -/
theorem clone_existingDir_skips_and_succeeds_witness :
    cloneExecute c9Env c9Inp =
      ({ success := true
         message := "ディレクトリ " ++ "sample" ++ " は既に存在するため、クローンをスキップしました。"
         repositoryFullPath := some ("/work/sample")
         cloneDirectoryName := some ("sample") }, []) := by
  have h := clone_existingDir_skips_and_succeeds c9Env c9Inp rfl
  simpa using h

/-- The concrete environment of claim C10: a read failure, one of the
modelled failure paths. -/
def c10Env : FPEnv :=
  { fileExists := fun _ => true
    readFileAt := fun _ => Except.error ("EACCES: permission denied")
    chunkAt := fun _ _ _ _ _ _ => Except.ok []
    createIndexAt := fun _ _ => Except.ok ()
    embedBatch := fun b => Except.ok (b.map (fun _ => []))
    upsertAt := fun _ _ _ => Except.ok () }

/-- The concrete input of claim C10. -/
def c10Inp : FPInput :=
  ⟨"secret.txt", "markdown", 256, 32, "\n", "vector_store.db", "docs", false⟩

/-- Witness for claim C10: even on a failure path the result carries the
input filePath and strategy. -/
theorem fileProcessor_preserves_input_fields_witness :
    (fileProcessorExecute c10Env c10Inp).filePath = "secret.txt"
    ∧ (fileProcessorExecute c10Env c10Inp).strategy = "markdown" :=
  fileProcessor_preserves_input_fields c10Env c10Inp
